import Mathlib

/-!
Verification of the VoiceFlight game loop (src/app/components/Game.tsx).

The file shallowly embeds the per-tick state-update algorithm of the
current `Game` component (the second document in Game.tsx, the one the
deployed page uses): flight dynamics, obstacle management, collision
detection, obstacle spawning, and the score decision.  JavaScript
numbers are modelled as rationals (every constant in the source is an
exact decimal), wall-clock milliseconds as integers, and the two
`Math.random()` draws made when an obstacle spawns are passed in as
explicit parameters `r` (gap position) and `r2` (building seed).
Canvas painting has no effect on game state and is not modelled.
-/

namespace VoiceFlight

/-- The plane record held in `gameLoopRef.current.plane`:
horizontal position (set to 100 at start and never changed), vertical
position, vertical velocity and rotation angle. -/
structure Plane where
  x : ℚ
  y : ℚ
  velocity : ℚ
  rotation : ℚ
  deriving DecidableEq, Repr

/-- One obstacle as pushed by `gameLoop`/`startGame`: horizontal
position `x`, top of the gap `gapY`, gap height, and the `peaks` list
produced by `generateBuilding` (stored but never read back). -/
structure Obstacle where
  x : ℚ
  gapY : ℚ
  gapHeight : ℚ
  peaks : List ℚ
  deriving DecidableEq, Repr

/-- The mutable record `gameLoopRef.current`. -/
structure GameLoopState where
  plane : Plane
  obstacles : List Obstacle
  lastObstacleTime : ℤ
  bgOffset : ℚ
  deriving DecidableEq, Repr

/-- Result of one executed tick of `gameLoop`: the new game state, the
final value of the `collision` flag (when it is `true` the tick cancels
the scheduled frame and returns before the score update), and the score
increment the tick applies via `setGameState`. -/
structure TickResult where
  state : GameLoopState
  crashed : Bool
  scoreDelta : ℕ
  deriving DecidableEq, Repr

/-- JavaScript `Math.max` on rationals, written with an explicit test
so that concrete states evaluate inside the kernel. -/
def jsMax (a b : ℚ) : ℚ :=
  if a ≤ b then b else a

/-- JavaScript `Math.min` on rationals. -/
def jsMin (a b : ℚ) : ℚ :=
  if a ≤ b then a else b

theorem jsMax_eq_max (a b : ℚ) : jsMax a b = max a b := by
  rw [jsMax, max_def]

theorem jsMin_eq_min (a b : ℚ) : jsMin a b = min a b := by
  rw [jsMin, min_def]

/-- The Volume Sampler (Game.tsx lines 687-694): mean of the frequency
bins, minus the noise floor 10 clamped at zero, times the gain 0.8.
The source calls `dataArray.reduce((a,b) => a+b)` on a nonempty array
(`frequencyBinCount` is 512), so only nonempty `bins` model a real tick. -/
def sampleVolume (bins : List ℚ) : ℚ :=
  (jsMax 0 (bins.sum / (bins.length : ℚ) - 10)) * (4 / 5)

/-- The lift term of line 698: `Math.max(0, (volume - 3) * 0.2)`. -/
def liftOf (volume : ℚ) : ℚ :=
  jsMax 0 ((volume - 3) * (1 / 5))

/-- The velocity clamp of line 703: `Math.max(-6, Math.min(6, v))`. -/
def clampVel (v : ℚ) : ℚ :=
  jsMax (-6) (jsMin 6 v)

/-- The position clamp of line 705:
`Math.max(20, Math.min(canvas.height - 20, y))`. -/
def clampY (H y : ℚ) : ℚ :=
  jsMax 20 (jsMin (H - 20) y)

/-- Flight Dynamics, lines 697-709 of Game.tsx, in source order:
gravity 0.25 is added to the velocity, the lift is subtracted, the
velocity is damped by 0.97 and clamped to [-6, 6], the position moves
by the new velocity and is clamped to [20, H - 20], and the rotation is
eased toward `velocity * 0.15` with interpolation factor 0.1. -/
def planeStep (volume H : ℚ) (p : Plane) : Plane :=
  let lift := liftOf volume
  let v1 := p.velocity + 1 / 4
  let v2 := v1 - lift
  let v3 := v2 * (97 / 100)
  let v4 := clampVel v3
  let y2 := clampY H (p.y + v4)
  let targetRotation := v4 * (3 / 20)
  let rot := p.rotation + (targetRotation - p.rotation) * (1 / 10)
  { x := p.x, y := y2, velocity := v4, rotation := rot }

/-- The boundary check of line 643: the hitbox is `y - 20` with height
40, and a collision is reported when its top is at or above 0 or its
bottom at or below the canvas height. -/
def boundaryCollision (y H : ℚ) : Bool :=
  decide (y - 20 ≤ 0) || decide (y - 20 + 40 ≥ H)

/-- One step of obstacle motion: `obstacle.x -= 3` (line 655). -/
def decrObstacle (ob : Obstacle) : Obstacle :=
  { ob with x := ob.x - 3 }

/-- The pure per-obstacle collision predicate of lines 659-677: the
hitbox (left edge `hx`, top `hy`, width `hw`, height `hh`) horizontally
overlaps the obstacle column of width 50, and its top is above the gap
top or its bottom below the gap bottom. -/
def collidesObstacle (hx hy hw hh : ℚ) (ob : Obstacle) : Bool :=
  (decide (hx + hw > ob.x) && decide (hx < ob.x + 50)) &&
    (decide (hy < ob.gapY) || decide (hy + hh > ob.gapY + ob.gapHeight))

/-- Collision against a whole collection: any obstacle of the list
triggers `collidesObstacle`. -/
def obstaclesHit (hx hy hw hh : ℚ) (obs : List Obstacle) : Bool :=
  obs.any (collidesObstacle hx hy hw hh)

/-- The fused obstacle traversal of lines 654-680, translated
statement by statement: each obstacle is first moved left by 3, then
tested against the hitbox (inner `if`s set the shared `collision`
flag), and kept exactly when its new position is `> -50`.  The result
is the surviving list together with the accumulated collision flag. -/
def updateObstacles (hx hy hw hh : ℚ) : List Obstacle → List Obstacle × Bool
  | [] => ([], false)
  | ob :: rest =>
    let x2 := ob.x - 3
    let ob2 : Obstacle := { ob with x := x2 }
    let hitHere : Bool :=
      if decide (hx + hw > x2) && decide (hx < x2 + 50) then
        decide (hy < ob.gapY) || decide (hy + hh > ob.gapY + ob.gapHeight)
      else false
    let tail := updateObstacles hx hy hw hh rest
    (if decide (x2 > -50) then ob2 :: tail.1 else tail.1, hitHere || tail.2)

/-- The Obstacle Manager update on its own: every obstacle moves left
by 3 and survivors are those with new position `> -50`, in order. -/
def advanceObstacles (obs : List Obstacle) : List Obstacle :=
  (obs.map decrObstacle).filter (fun ob => decide (ob.x > -50))

/-- `generateBuilding` (lines 466-471): a single random base height
`Math.random() * 150 + 100`, with the draw passed in as `r2`. -/
def generateBuilding (r2 : ℚ) : List ℚ :=
  [r2 * 150 + 100]

/-- Obstacle creation as written at both spawn sites (startGame lines
586-593 and gameLoop lines 724-731): `x` starts at the canvas width,
`gapY = Math.random() * (H - 250 - 100) + 50` with the draw passed in
as `r`, and the gap height is the constant 250. -/
def spawnObstacle (r r2 W H : ℚ) : Obstacle :=
  { x := W, gapY := r * (H - 250 - 100) + 50, gapHeight := 250,
    peaks := generateBuilding r2 }

/-- JavaScript `%` for the nonnegative operands used at line 712
(`(bgOffset + 2) % canvas.width`); on nonnegative dividends truncation
and flooring agree. -/
def jsMod (a b : ℚ) : ℚ :=
  a - b * ((⌊a / b⌋ : ℤ) : ℚ)

/-- One executed tick of `gameLoop` (lines 617-784), for a tick on
which canvas and analyser are available, in source order: the boundary
check on the incoming plane position; if it found nothing, the fused
obstacle move/detect/retire traversal; the volume sample; the flight
dynamics; the background offset; the wall-clock obstacle spawn; and
finally the collision branch, which on `true` cancels the next frame
and returns (score unchanged) and otherwise increments the score by 1. -/
def tick (bins : List ℚ) (r r2 W H : ℚ) (now : ℤ) (s : GameLoopState) :
    TickResult :=
  let bcol := boundaryCollision s.plane.y H
  let upd :=
    if bcol then (s.obstacles, false)
    else updateObstacles (s.plane.x - 40) (s.plane.y - 20) 80 40 s.obstacles
  let collision := bcol || upd.2
  let volume := sampleVolume bins
  let plane2 := planeStep volume H s.plane
  let bg2 := jsMod (s.bgOffset + 2) W
  let obstacles2 :=
    if 2000 < now - s.lastObstacleTime then upd.1 ++ [spawnObstacle r r2 W H]
    else upd.1
  let lastTime2 :=
    if 2000 < now - s.lastObstacleTime then now else s.lastObstacleTime
  { state := { plane := plane2, obstacles := obstacles2,
               lastObstacleTime := lastTime2, bgOffset := bg2 },
    crashed := collision,
    scoreDelta := if collision then 0 else 1 }

/-- The fresh state built by `startGame` (lines 573-593): plane at
(100, H/2) with zero velocity and rotation, one obstacle spawned with
the same formula as in the loop, spawn clock set to the current time. -/
def startState (r r2 W H : ℚ) (now : ℤ) : GameLoopState :=
  { plane := { x := 100, y := H / 2, velocity := 0, rotation := 0 },
    obstacles := [spawnObstacle r r2 W H],
    lastObstacleTime := now,
    bgOffset := 0 }

/-- Stage 1 of the dynamics pipeline as the spec words it:
velocity += gravity. -/
def specGravity (p : Plane) : Plane :=
  { p with velocity := p.velocity + 1 / 4 }

/-- Stage 2 as the spec words it:
lift = max(0, (volume - liftThreshold) * liftGain); velocity -= lift. -/
def specLift (volume : ℚ) (p : Plane) : Plane :=
  { p with velocity := p.velocity - max 0 ((volume - 3) * (1 / 5)) }

/-- Stage 3 as the spec words it: velocity *= dampingFactor. -/
def specDamp (p : Plane) : Plane :=
  { p with velocity := p.velocity * (97 / 100) }

/-- Stage 4 as the spec words it: velocity clamped to [-Vmax, Vmax]. -/
def specClampVel (p : Plane) : Plane :=
  { p with velocity := max (-6) (min 6 p.velocity) }

/-- Stage 5 as the spec words it: position += velocity, then clamped
to [halfHeight, surfaceHeight - halfHeight]. -/
def specMove (H : ℚ) (p : Plane) : Plane :=
  { p with y := max 20 (min (H - 20) (p.y + p.velocity)) }

/-- Stage 6 as the spec words it:
rotation += (velocity * rotationGain - rotation) * smoothing. -/
def specRotate (p : Plane) : Plane :=
  { p with rotation := p.rotation + (p.velocity * (3 / 20) - p.rotation) * (1 / 10) }

/-- The spec's Flight Dynamics pipeline: the six stages composed in
the order the spec states them. -/
def specDynamics (volume H : ℚ) (p : Plane) : Plane :=
  specRotate (specMove H (specClampVel (specDamp (specLift volume (specGravity p)))))

/-- A tick in the stage order the spec's pipeline describes (volume
sampling, then dynamics, then the obstacle update, then collision
detection, then the score decision), so that the collision decision
reads the plane position and obstacle positions produced by the same
tick.  Written only to be compared with `tick`, which is the source's
order. -/
def specOrderTick (bins : List ℚ) (r r2 W H : ℚ) (now : ℤ)
    (s : GameLoopState) : TickResult :=
  let volume := sampleVolume bins
  let plane2 := planeStep volume H s.plane
  let moved := advanceObstacles s.obstacles
  let obstacles2 :=
    if 2000 < now - s.lastObstacleTime then moved ++ [spawnObstacle r r2 W H]
    else moved
  let lastTime2 :=
    if 2000 < now - s.lastObstacleTime then now else s.lastObstacleTime
  let collision :=
    boundaryCollision plane2.y H ||
      obstaclesHit (plane2.x - 40) (plane2.y - 20) 80 40 obstacles2
  { state := { plane := plane2, obstacles := obstacles2,
               lastObstacleTime := lastTime2,
               bgOffset := jsMod (s.bgOffset + 2) W },
    crashed := collision,
    scoreDelta := if collision then 0 else 1 }

/-- Event-level model of the resources the scheduler touches when it
stops: whether a scheduled animation frame is still pending, whether
any microphone track of the captured media stream is live, and whether
the analysis audio context is open. -/
structure ResourceState where
  pendingFrame : Bool
  micLive : Bool
  ctxOpen : Bool
  deriving DecidableEq, Repr

/-- The collision branch of `gameLoop` (lines 766-775) together with
the delayed `gameOver` it schedules (lines 796-806): the pending
animation frame is canceled and React state is updated; no microphone
track is stopped and the audio context is not closed. -/
def collisionHalt (s : ResourceState) : ResourceState :=
  { s with pendingFrame := false }

/-- The cleanup returned by the audio-setup effect (lines 401-413).
The booleans `capturedStream` and `capturedCtx` say whether
`mediaStream` and `audioContext` were non-null in the render closure
the effect captured.  The effect has an empty dependency array, so it
runs once on mount, when both state values are still null; the async
`setupAudio` sets them only after the effect body has returned, so the
cleanup that unmount invokes holds `capturedStream = capturedCtx =
false` whenever audio was acquired after mount. -/
def effectCleanup (capturedStream capturedCtx : Bool)
    (s : ResourceState) : ResourceState :=
  { pendingFrame := false,
    micLive := if capturedStream then false else s.micLive,
    ctxOpen := if capturedCtx then false else s.ctxOpen }

theorem updateObstacles_fst (hx hy hw hh : ℚ) (obs : List Obstacle) :
    (updateObstacles hx hy hw hh obs).1 = advanceObstacles obs := by
  induction obs with
  | nil => rfl
  | cons ob rest ih =>
    simp only [updateObstacles, advanceObstacles, List.map_cons, List.filter_cons,
      decrObstacle, ih]

theorem updateObstacles_snd (hx hy hw hh : ℚ) (obs : List Obstacle) :
    (updateObstacles hx hy hw hh obs).2 =
      obstaclesHit hx hy hw hh (obs.map decrObstacle) := by
  induction obs with
  | nil => rfl
  | cons ob rest ih =>
    simp only [updateObstacles, obstaclesHit, List.map_cons, List.any_cons,
      decrObstacle, collidesObstacle, ih]
    cases hA : (decide (hx + hw > ob.x - 3) && decide (hx < ob.x - 3 + 50)) <;>
      simp [hA]

theorem tick_crashed_eq (bins : List ℚ) (r r2 W H : ℚ) (now : ℤ)
    (s : GameLoopState) :
    (tick bins r r2 W H now s).crashed =
      (boundaryCollision s.plane.y H ||
        obstaclesHit (s.plane.x - 40) (s.plane.y - 20) 80 40
          (s.obstacles.map decrObstacle)) := by
  cases hb : boundaryCollision s.plane.y H <;>
    simp [tick, hb, updateObstacles_snd]

theorem clampY_bounds (H y : ℚ) (hH : 40 ≤ H) :
    20 ≤ clampY H y ∧ clampY H y ≤ H - 20 := by
  rw [clampY, jsMax_eq_max, jsMin_eq_min]
  exact ⟨le_max_left _ _, max_le (by linarith) (min_le_left _ _)⟩

/-- Claim C1: on every executed tick the plane update runs the six
dynamics stages in the stated order — gravity added to the velocity,
lift `max(0, (volume - liftThreshold) * liftGain)` subtracted, damping
by the factor 0.97 < 1, the symmetric velocity clamp, the position
move with its clamp, and the eased rotation — and for every volume at
or below the lift threshold the lift contribution is exactly 0. -/
theorem dynamics_stage_order :
    (∀ (volume H : ℚ) (p : Plane), planeStep volume H p = specDynamics volume H p) ∧
    (∀ volume : ℚ, volume ≤ 3 → liftOf volume = 0) := by
  constructor
  · intro volume H p
    cases p with
    | mk x y v rot =>
      simp [planeStep, specDynamics, specGravity, specLift, specDamp, specClampVel,
        specMove, specRotate, clampVel, clampY, liftOf, jsMax_eq_max, jsMin_eq_min]
  · intro volume h
    have hle : (volume - 3) * (1 / 5) ≤ 0 := by nlinarith
    rw [liftOf, jsMax]
    split
    · exact le_antisymm hle (by assumption)
    · rfl

theorem dynamics_stage_order_witness :
    planeStep 0 600 { x := 100, y := 300, velocity := 0, rotation := 0 } =
      specDynamics 0 600 { x := 100, y := 300, velocity := 0, rotation := 0 } ∧
    ((2 : ℚ) ≤ 3 ∧ liftOf 2 = 0) :=
  ⟨dynamics_stage_order.1 0 600 _, by norm_num, dynamics_stage_order.2 2 (by norm_num)⟩

/-- Claim C2: after every executed tick the plane's vertical position
lies in [20, H - 20], for every bin snapshot, random draw, time and
prior state, whenever the canvas height admits the interval at all
(H at least twice the 20-pixel half-height). -/
theorem position_clamp_invariant (bins : List ℚ) (r r2 W H : ℚ) (now : ℤ)
    (s : GameLoopState) (hH : 40 ≤ H) :
    20 ≤ (tick bins r r2 W H now s).state.plane.y ∧
      (tick bins r r2 W H now s).state.plane.y ≤ H - 20 :=
  clampY_bounds H _ hH

theorem position_clamp_invariant_witness :
    (40 : ℚ) ≤ 600 ∧
      (20 ≤ (tick [0] 0 0 800 600 0
        { plane := { x := 100, y := 300, velocity := 0, rotation := 0 },
          obstacles := [], lastObstacleTime := 0, bgOffset := 0 }).state.plane.y ∧
       (tick [0] 0 0 800 600 0
        { plane := { x := 100, y := 300, velocity := 0, rotation := 0 },
          obstacles := [], lastObstacleTime := 0, bgOffset := 0 }).state.plane.y ≤ 600 - 20) :=
  ⟨by norm_num, position_clamp_invariant [0] 0 0 800 600 0 _ (by norm_num)⟩

/-- Claim C3: the Collision Detector is a pure predicate.  The fused
source traversal of lines 654-680 factors exactly into the Obstacle
Manager update (move left, retire) paired with the pure predicate
`obstaclesHit` evaluated on the moved collection: detection contributes
no change to any obstacle, and being a function, `obstaclesHit` returns
identical results on identical hitbox/bounds/collection inputs. -/
theorem collision_detector_pure (hx hy hw hh : ℚ) (obs : List Obstacle) :
    updateObstacles hx hy hw hh obs =
      (advanceObstacles obs, obstaclesHit hx hy hw hh (obs.map decrObstacle)) := by
  rw [Prod.ext_iff]
  exact ⟨updateObstacles_fst hx hy hw hh obs, updateObstacles_snd hx hy hw hh obs⟩

/-- Claim C4, counterexample: the code computes the collision decision
before the dynamics, not after.  Started at y = 21 falling at the
velocity cap with silence, the executed tick reports no collision even
though the position produced by that same tick's dynamics (y = 20) is
already in boundary collision — the spec-ordered tick on the same
state reports a collision. -/
theorem tick_order_counterexample :
    (tick [0] 0 0 800 600 0
      { plane := { x := 100, y := 21, velocity := -6, rotation := 0 },
        obstacles := [], lastObstacleTime := 0, bgOffset := 0 }).crashed = false ∧
    (specOrderTick [0] 0 0 800 600 0
      { plane := { x := 100, y := 21, velocity := -6, rotation := 0 },
        obstacles := [], lastObstacleTime := 0, bgOffset := 0 }).crashed = true := by
  constructor
  · norm_num [tick, boundaryCollision, updateObstacles, sampleVolume, jsMax, jsMin]
  · norm_num [specOrderTick, boundaryCollision, planeStep, clampY, clampVel, liftOf,
      sampleVolume, advanceObstacles, obstaclesHit, jsMax, jsMin]

/-- Claim C4, amended: within each executed tick the collision
decision is computed from the plane position of the previous tick's
dynamics together with the obstacle positions after the current tick's
decrement; the dynamics run after detection and are untouched by it. -/
theorem tick_pipeline_order_amended (bins : List ℚ) (r r2 W H : ℚ) (now : ℤ)
    (s : GameLoopState) :
    (tick bins r r2 W H now s).crashed =
      (boundaryCollision s.plane.y H ||
        obstaclesHit (s.plane.x - 40) (s.plane.y - 20) 80 40
          (s.obstacles.map decrObstacle)) ∧
    (tick bins r r2 W H now s).state.plane =
      planeStep (sampleVolume bins) H s.plane :=
  ⟨tick_crashed_eq bins r r2 W H now s, rfl⟩

/-- Claim C5: a tick whose collision flag is false adds exactly 1 to
the score, and a tick whose collision flag is true returns before the
score update, leaving the score unchanged. -/
theorem score_increment_per_tick (bins : List ℚ) (r r2 W H : ℚ) (now : ℤ)
    (s : GameLoopState) :
    ((tick bins r r2 W H now s).crashed = false →
      (tick bins r r2 W H now s).scoreDelta = 1) ∧
    ((tick bins r r2 W H now s).crashed = true →
      (tick bins r r2 W H now s).scoreDelta = 0) := by
  cases hc : (tick bins r r2 W H now s).crashed with
  | false =>
    refine ⟨fun _ => ?_, fun h => by simp [hc] at h⟩
    have : (tick bins r r2 W H now s).scoreDelta =
        if (tick bins r r2 W H now s).crashed then 0 else 1 := rfl
    rw [this, hc]
    rfl
  | true =>
    refine ⟨fun h => by simp [hc] at h, fun _ => ?_⟩
    have : (tick bins r r2 W H now s).scoreDelta =
        if (tick bins r r2 W H now s).crashed then 0 else 1 := rfl
    rw [this, hc]
    rfl

theorem score_increment_per_tick_witness :
    (tick [0] 0 0 800 600 0
      { plane := { x := 100, y := 300, velocity := 0, rotation := 0 },
        obstacles := [], lastObstacleTime := 0, bgOffset := 0 }).scoreDelta = 1 ∧
    (tick [0] 0 0 800 600 0
      { plane := { x := 100, y := 10, velocity := 0, rotation := 0 },
        obstacles := [], lastObstacleTime := 0, bgOffset := 0 }).scoreDelta = 0 :=
  ⟨(score_increment_per_tick [0] 0 0 800 600 0 _).1
      (by norm_num [tick, boundaryCollision, updateObstacles]),
   (score_increment_per_tick [0] 0 0 800 600 0 _).2
      (by norm_num [tick, boundaryCollision])⟩

/-- Claim C6, counterexample: the margin invariant does not hold for
every surface height the canvas can take.  On a 100-pixel-high canvas
(the resize handler caps the height at 600 but imposes no lower bound)
the draw 1/2 places the gap at gapY = -75, violating gapY at least 50. -/
theorem gap_margin_counterexample :
    ¬ (50 ≤ (spawnObstacle (1/2) 0 800 100).gapY ∧
        (spawnObstacle (1/2) 0 800 100).gapY +
          (spawnObstacle (1/2) 0 800 100).gapHeight ≤ 100 - 50) := by
  norm_num [spawnObstacle]

/-- Claim C6, amended: every obstacle either spawn site creates (both
use the formula gapY = random * (H - 250 - 100) + 50 with gapHeight
250) satisfies gapY at least 50 and gapY + gapHeight at most H - 50,
for every random draw in [0, 1) and every surface height of at least
350 = gapHeight + both margins. -/
theorem gap_margin_amended (r r2 W H : ℚ) (h0 : 0 ≤ r) (h1 : r < 1)
    (hH : 350 ≤ H) :
    50 ≤ (spawnObstacle r r2 W H).gapY ∧
      (spawnObstacle r r2 W H).gapY + (spawnObstacle r r2 W H).gapHeight ≤ H - 50 := by
  rw [spawnObstacle]
  constructor
  · have : 0 ≤ r * (H - 250 - 100) := mul_nonneg h0 (by linarith)
    simp only
    linarith
  · have : r * (H - 250 - 100) ≤ 1 * (H - 250 - 100) :=
      mul_le_mul_of_nonneg_right (le_of_lt h1) (by linarith)
    simp only
    linarith

theorem gap_margin_amended_witness :
    ((0 : ℚ) ≤ 1/2 ∧ (1/2 : ℚ) < 1 ∧ (350 : ℚ) ≤ 600) ∧
    (50 ≤ (spawnObstacle (1/2) 0 800 600).gapY ∧
      (spawnObstacle (1/2) 0 800 600).gapY +
        (spawnObstacle (1/2) 0 800 600).gapHeight ≤ 600 - 50) :=
  ⟨⟨by norm_num, by norm_num, by norm_num⟩,
    gap_margin_amended (1/2) 0 800 600 (by norm_num) (by norm_num) (by norm_num)⟩

/-- Claim C7, counterexample: removal is not "position after decrement
strictly below -50".  An obstacle at x = -47 moves to exactly -50 and
is removed by the source's `obstacle.x > -50` filter, although -50 is
not strictly below -50, so the claimed criterion would keep it. -/
theorem obstacle_removal_counterexample :
    (updateObstacles 60 280 80 40
        [{ x := -47, gapY := 100, gapHeight := 250, peaks := [] }]).1 = [] ∧
    ¬ ((-47 : ℚ) - 3 < -50) := by
  constructor
  · norm_num [updateObstacles]
  · norm_num

/-- Claim C7, amended: each tick moves every obstacle left by the
fixed speed 3, an obstacle stays in the collection exactly when its
moved position is not at or below -50 (so removal happens at
position ≤ -50, not < -50), and the survivors keep their relative
spawn order (the surviving list is a sublist of the moved list). -/
theorem obstacle_removal_amended (hx hy hw hh : ℚ) (obs : List Obstacle) :
    (updateObstacles hx hy hw hh obs).1 = advanceObstacles obs ∧
    (∀ ob : Obstacle, ob ∈ (updateObstacles hx hy hw hh obs).1 ↔
      ob ∈ obs.map decrObstacle ∧ ¬ ob.x ≤ -50) ∧
    List.Sublist (updateObstacles hx hy hw hh obs).1 (obs.map decrObstacle) := by
  refine ⟨updateObstacles_fst hx hy hw hh obs, ?_, ?_⟩
  · intro ob
    rw [updateObstacles_fst, advanceObstacles]
    simp [List.mem_filter, not_le]
  · rw [updateObstacles_fst, advanceObstacles]
    exact List.filter_sublist _

/-- Claim C8, counterexample: stopping the scheduler does not release
the audio capture.  With a pending frame, a live microphone track and
an open context, the collision branch leaves the track live and the
context open, and so does the unmount cleanup, because the cleanup
reads the null stream/context captured when the effect mounted. -/
theorem audio_release_counterexample :
    (collisionHalt { pendingFrame := true, micLive := true, ctxOpen := true }).micLive = true ∧
    (collisionHalt { pendingFrame := true, micLive := true, ctxOpen := true }).ctxOpen = true ∧
    (effectCleanup false false
      { pendingFrame := true, micLive := true, ctxOpen := true }).micLive = true ∧
    (effectCleanup false false
      { pendingFrame := true, micLive := true, ctxOpen := true }).ctxOpen = true := by
  refine ⟨rfl, rfl, rfl, rfl⟩

/-- Claim C8, amended: when the scheduler stops, no further scheduled
tick runs — both the collision branch and the effect cleanup cancel
the pending frame — but the collision branch leaves the microphone and
context untouched (the pipeline is kept for replays within the
session), and the cleanup stops tracks and closes the context only
according to the stream/context values captured in its closure, which
are the nulls of the mount-time render whenever audio finished its
async setup after mount. -/
theorem scheduler_stop_amended (cs cc : Bool) (s : ResourceState) :
    (collisionHalt s).pendingFrame = false ∧
    (effectCleanup cs cc s).pendingFrame = false ∧
    (collisionHalt s).micLive = s.micLive ∧
    (collisionHalt s).ctxOpen = s.ctxOpen ∧
    (effectCleanup cs cc s).micLive = (if cs then false else s.micLive) ∧
    (effectCleanup cs cc s).ctxOpen = (if cc then false else s.ctxOpen) := by
  refine ⟨rfl, rfl, rfl, rfl, rfl, rfl⟩

/-- Claim C9: the hitbox half-height and the position-clamp margin are
both 20, so a tick that begins with the plane at or beyond a clamp
bound (y ≤ 20 or y ≥ H - 20) — the exact state an active position
clamp leaves behind — reports a boundary collision and ends the game. -/
theorem clamp_bound_collision (bins : List ℚ) (r r2 W H : ℚ) (now : ℤ)
    (s : GameLoopState) (h : s.plane.y ≤ 20 ∨ H - 20 ≤ s.plane.y) :
    (tick bins r r2 W H now s).crashed = true := by
  rw [tick_crashed_eq]
  have hb : boundaryCollision s.plane.y H = true := by
    rw [boundaryCollision]
    rcases h with h | h
    · have h1 : s.plane.y - 20 ≤ 0 := by linarith
      simp [h1]
    · have h1 : H ≤ s.plane.y - 20 + 40 := by linarith
      simp [h1]
  rw [hb]
  rfl

theorem clamp_bound_collision_witness :
    ((10 : ℚ) ≤ 20 ∨ (600 : ℚ) - 20 ≤ 10) ∧
    (tick [0] 0 0 800 600 0
      { plane := { x := 100, y := 10, velocity := 0, rotation := 0 },
        obstacles := [], lastObstacleTime := 0, bgOffset := 0 }).crashed = true :=
  ⟨Or.inl (by norm_num),
    clamp_bound_collision [0] 0 0 800 600 0 _ (Or.inl (by norm_num))⟩

/-- Claim C10, counterexample: a boundary-collision tick does not
leave the obstacle collection completely unchanged.  At y = 10 the
boundary check fires, yet because the wall-clock spawn is not guarded
on the collision flag, a tick on which the 2000 ms cadence has elapsed
still appends a new obstacle: the collection grows from one obstacle
to two. -/
theorem obstacle_freeze_counterexample :
    boundaryCollision (10 : ℚ) 600 = true ∧
    (tick [0] (1/2) (1/2) 800 600 3000
      { plane := { x := 100, y := 10, velocity := 0, rotation := 0 },
        obstacles := [{ x := 400, gapY := 100, gapHeight := 250, peaks := [] }],
        lastObstacleTime := 0, bgOffset := 0 }).state.obstacles.length = 2 := by
  constructor
  · norm_num [boundaryCollision]
  · norm_num [tick, boundaryCollision]

/-- Claim C10, amended: on a tick whose boundary check fires, no
existing obstacle is advanced or removed (the guarded traversal is
skipped entirely, drawing included), but the collection is unchanged
only when the spawn cadence has not elapsed; when it has, the tick
still appends one newly spawned obstacle. -/
theorem obstacle_freeze_amended (bins : List ℚ) (r r2 W H : ℚ) (now : ℤ)
    (s : GameLoopState) (h : boundaryCollision s.plane.y H = true) :
    (tick bins r r2 W H now s).state.obstacles =
      (if 2000 < now - s.lastObstacleTime then
        s.obstacles ++ [spawnObstacle r r2 W H]
      else s.obstacles) := by
  simp [tick, h]

theorem obstacle_freeze_amended_witness :
    boundaryCollision (10 : ℚ) 600 = true ∧
    (tick [0] (1/2) (1/2) 800 600 3000
      { plane := { x := 100, y := 10, velocity := 0, rotation := 0 },
        obstacles := [{ x := 400, gapY := 100, gapHeight := 250, peaks := [] }],
        lastObstacleTime := 0, bgOffset := 0 }).state.obstacles =
      (if 2000 < (3000 : ℤ) - 0 then
        [{ x := 400, gapY := 100, gapHeight := 250, peaks := [] }] ++
          [spawnObstacle (1/2) (1/2) 800 600]
      else [{ x := 400, gapY := 100, gapHeight := 250, peaks := [] }]) :=
  ⟨by norm_num [boundaryCollision],
    obstacle_freeze_amended [0] (1/2) (1/2) 800 600 3000 _
      (by norm_num [boundaryCollision])⟩

end VoiceFlight
